import Mathlib

set_option maxHeartbeats 1000000

/-!
Shallow embedding of the team-collaboration backend in `src/server/routes.ts`.
Each HTTP handler is translated to a pure function from a `Store` (the
persisted state), the session's authenticated user id, and the request
parameters, to a `Resp` (status code, JSON body, updated store).  The
persistence layer (`storage.ts` is not part of the sources) is modelled from
the spec as CRUD accessors keyed by numeric id (spec §2, §6).
-/

namespace ERP

/-- A JSON value, used for response bodies. -/
inductive Json where
  | null
  | str (s : String)
  | num (n : Int)
  | arr (xs : List Json)
  | obj (fields : List (String × Json))

mutual

/-- Does a JSON value contain a field named `k` anywhere (any nesting depth)? -/
def hasKey (k : String) : Json → Bool
  | .obj fs => hasKeyFields k fs
  | .arr xs => hasKeyList k xs
  | _ => false

def hasKeyFields (k : String) : List (String × Json) → Bool
  | [] => false
  | (k', v) :: rest => k' == k || hasKey k v || hasKeyFields k rest

def hasKeyList (k : String) : List Json → Bool
  | [] => false
  | v :: rest => hasKey k v || hasKeyList k rest

end

/-- The result of JavaScript's `parseInt` on a path/query parameter:
either a genuine integer or `NaN` (non-numeric input). -/
inductive JsNum where
  | nan
  | int (n : Int)
deriving DecidableEq

/-- JavaScript truthiness of a number: `0` and `NaN` are falsy. -/
def JsNum.truthy : JsNum → Bool
  | .nan => false
  | .int n => n != 0

/-- JavaScript strict equality between a parsed number and an integer:
`NaN === x` is always false. -/
def jsEq : JsNum → Int → Bool
  | .nan, _ => false
  | .int n, m => n == m

/-- A query parameter that is absent (or an empty string) behaves, in every
use the handlers make of it (truthiness test, `===` comparison, id lookup),
exactly like `NaN`; collapse `undefined` to `.nan`. -/
def jsOrNan : Option JsNum → JsNum
  | none => .nan
  | some j => j

structure User where
  id : Int
  username : String
  password : String
  email : String
  fullName : String
  avatar : String
  role : String
  userType : String
deriving DecidableEq

structure Team where
  id : Int
  name : String
  description : String
  createdBy : Int
deriving DecidableEq

structure TeamMember where
  teamId : Int
  userId : Int
  role : String
deriving DecidableEq

structure Project where
  id : Int
  teamId : Int
  name : String
deriving DecidableEq

structure Task where
  id : Int
  projectId : Int
  title : String
  status : String
  order : Int
  assigneeId : Int
deriving DecidableEq

structure Comment where
  id : Int
  taskId : Int
  userId : Int
  content : String
deriving DecidableEq

structure File where
  id : Int
  projectId : Int
  taskId : Int
  uploadedBy : Int
  name : String
deriving DecidableEq

structure Message where
  id : Int
  teamId : Int
  userId : Int
  content : String
deriving DecidableEq

/-- The persisted state (spec §2: Identity Store). -/
structure Store where
  users : List User
  teams : List Team
  members : List TeamMember
  projects : List Project
  tasks : List Task
  comments : List Comment
  files : List File
  messages : List Message
deriving DecidableEq

/-! ### Storage accessors

Modelled from the spec: `storage.ts` is not under `src/`; spec §2 and §6
describe it as CRUD-style accessors keyed by numeric id or by foreign key.
A `NaN` key matches no record (spec §4.3: "non-numeric input yields `NaN`,
which the persistence lookup must treat as not found"). -/

def Store.userById (s : Store) (i : Int) : Option User :=
  s.users.find? (fun u => u.id == i)

def Store.userByIdJ (s : Store) (j : JsNum) : Option User :=
  s.users.find? (fun u => jsEq j u.id)

def Store.userByUsername (s : Store) (n : String) : Option User :=
  s.users.find? (fun u => u.username == n)

def Store.userByEmail (s : Store) (e : String) : Option User :=
  s.users.find? (fun u => u.email == e)

def Store.teamById (s : Store) (i : Int) : Option Team :=
  s.teams.find? (fun t => t.id == i)

def Store.teamByIdJ (s : Store) (j : JsNum) : Option Team :=
  s.teams.find? (fun t => jsEq j t.id)

def Store.projectById (s : Store) (i : Int) : Option Project :=
  s.projects.find? (fun p => p.id == i)

def Store.projectByIdJ (s : Store) (j : JsNum) : Option Project :=
  s.projects.find? (fun p => jsEq j p.id)

def Store.taskById (s : Store) (i : Int) : Option Task :=
  s.tasks.find? (fun t => t.id == i)

def Store.taskByIdJ (s : Store) (j : JsNum) : Option Task :=
  s.tasks.find? (fun t => jsEq j t.id)

def Store.commentByIdJ (s : Store) (j : JsNum) : Option Comment :=
  s.comments.find? (fun c => jsEq j c.id)

def Store.fileByIdJ (s : Store) (j : JsNum) : Option File :=
  s.files.find? (fun f => jsEq j f.id)

def Store.messageByIdJ (s : Store) (j : JsNum) : Option Message :=
  s.messages.find? (fun m => jsEq j m.id)

/-- `storage.getTeamMembers(teamId)` with a record-sourced (integer) team id. -/
def Store.teamMembers (s : Store) (teamId : Int) : List TeamMember :=
  s.members.filter (fun m => m.teamId == teamId)

/-- `storage.getTeamMembers(teamId)` with a parsed (possibly `NaN`) team id. -/
def Store.teamMembersJ (s : Store) (j : JsNum) : List TeamMember :=
  s.members.filter (fun m => jsEq j m.teamId)

def Store.teamsByUser (s : Store) (u : Int) : List Team :=
  s.teams.filter (fun t => s.members.any (fun m => m.teamId == t.id && m.userId == u))

def Store.projectsByTeam (s : Store) (teamId : Int) : List Project :=
  s.projects.filter (fun p => p.teamId == teamId)

def Store.projectsByTeamJ (s : Store) (j : JsNum) : List Project :=
  s.projects.filter (fun p => jsEq j p.teamId)

def Store.tasksByProjectJ (s : Store) (j : JsNum) : List Task :=
  s.tasks.filter (fun t => jsEq j t.projectId)

def Store.tasksByAssignee (s : Store) (u : Int) : List Task :=
  s.tasks.filter (fun t => t.assigneeId == u)

def Store.tasksByAssigneeJ (s : Store) (j : JsNum) : List Task :=
  s.tasks.filter (fun t => jsEq j t.assigneeId)

/-- Modelled from the spec: the spec's data model (§3) gives a Comment the
attributes id, taskId, userId (author), body — no embedded User object —
so `storage.getCommentsByTask` returns plain comment records. -/
def Store.commentsByTaskJ (s : Store) (j : JsNum) : List Comment :=
  s.comments.filter (fun c => jsEq j c.taskId)

def Store.filesByProjectJ (s : Store) (j : JsNum) : List File :=
  s.files.filter (fun f => jsEq j f.projectId)

def Store.filesByTaskJ (s : Store) (j : JsNum) : List File :=
  s.files.filter (fun f => jsEq j f.taskId)

/-- `storage.getMessagesByTeam` returns each message joined with its author
User (the handler destructures `message.user`); modelled from the spec as the
join of each message with the user record its `userId` names. -/
def Store.messagesWithUserByTeamJ (s : Store) (j : JsNum) : List (Message × User) :=
  (s.messages.filter (fun m => jsEq j m.teamId)).filterMap
    (fun m => (s.userById m.userId).map (fun u => (m, u)))

/-- Fresh id assignment for created records (spec §2: ids are store-assigned). -/
def nextIdOf (l : List Int) : Int :=
  l.foldr max 0 + 1

/-! ### Validated request payloads

The zod insert schemas live in `@shared/schema` (not under `src/`); the
payload shapes are modelled from the spec's data model (§3).  Handlers run
after `validateBody`, so payloads arrive well-typed. -/

structure InsertUser where
  username : String
  password : String
  email : String
  fullName : String
  avatar : String
  role : String
  userType : String
deriving DecidableEq

structure UpdateUser where
  username : Option String
  password : Option String
  email : Option String
  fullName : Option String
  avatar : Option String
  role : Option String
  userType : Option String
deriving DecidableEq

structure InsertTeam where
  name : String
  description : String
deriving DecidableEq

structure UpdateTeam where
  name : Option String
  description : Option String
deriving DecidableEq

/-- Body of `POST /api/teams/:id/members`; the route overrides `teamId`. -/
structure InsertTeamMember where
  userId : Int
  role : String
deriving DecidableEq

structure InsertProject where
  teamId : Int
  name : String
deriving DecidableEq

structure UpdateProject where
  name : Option String
deriving DecidableEq

structure InsertTask where
  projectId : Int
  title : String
  status : String
  order : Int
  assigneeId : Int
deriving DecidableEq

structure UpdateTask where
  title : Option String
  status : Option String
  order : Option Int
  assigneeId : Option Int
deriving DecidableEq

/-- Body of `POST /api/tasks/:taskId/comments`; the insert schema carries
`taskId` and `userId` fields, which the route overrides from the path and
session. -/
structure InsertComment where
  taskId : Int
  userId : Int
  content : String
deriving DecidableEq

/-- Body of `POST /api/files`; `uploadedBy` is overridden from the session. -/
structure InsertFile where
  projectId : Int
  taskId : Int
  uploadedBy : Int
  name : String
deriving DecidableEq

/-- Body of `POST /api/teams/:teamId/messages`; the schema omits `teamId` and
`userId` (zod strips unknown keys), so only `content` survives validation. -/
structure InsertMessage where
  content : String
deriving DecidableEq

/-- JavaScript truthiness of an optional string field (`undefined` and the
empty string are falsy). -/
def strTruthy : Option String → Bool
  | none => false
  | some x => x != ""

/-! ### Storage mutators (modelled from the spec: narrow CRUD interface,
§2/§6; deletes of absent ids change nothing and report failure). -/

def Store.createUser (s : Store) (b : InsertUser) : User × Store :=
  let u : User :=
    ⟨nextIdOf (s.users.map (fun x => x.id)), b.username, b.password, b.email,
      b.fullName, b.avatar, b.role, b.userType⟩
  (u, { s with users := s.users ++ [u] })

def Store.updateUserJ (s : Store) (j : JsNum) (b : UpdateUser) : Option User × Store :=
  match s.userByIdJ j with
  | none => (none, s)
  | some u =>
    let u' : User :=
      { u with
        username := b.username.getD u.username
        password := b.password.getD u.password
        email := b.email.getD u.email
        fullName := b.fullName.getD u.fullName
        avatar := b.avatar.getD u.avatar
        role := b.role.getD u.role
        userType := b.userType.getD u.userType }
    (some u', { s with users := s.users.map (fun x => if jsEq j x.id then u' else x) })

def Store.deleteUserJ (s : Store) (j : JsNum) : Bool × Store :=
  if s.users.any (fun u => jsEq j u.id) then
    (true, { s with users := s.users.filter (fun u => !(jsEq j u.id)) })
  else (false, s)

def Store.createTeam (s : Store) (b : InsertTeam) (createdBy : Int) : Team × Store :=
  let t : Team := ⟨nextIdOf (s.teams.map (fun x => x.id)), b.name, b.description, createdBy⟩
  (t, { s with teams := s.teams ++ [t] })

def Store.updateTeam (s : Store) (i : Int) (b : UpdateTeam) : Option Team × Store :=
  match s.teamById i with
  | none => (none, s)
  | some t =>
    let t' : Team := { t with name := b.name.getD t.name, description := b.description.getD t.description }
    (some t', { s with teams := s.teams.map (fun x => if x.id == i then t' else x) })

def Store.deleteTeam (s : Store) (i : Int) : Bool × Store :=
  if s.teams.any (fun t => t.id == i) then
    (true, { s with teams := s.teams.filter (fun t => !(t.id == i)) })
  else (false, s)

def Store.addTeamMember (s : Store) (m : TeamMember) : TeamMember × Store :=
  (m, { s with members := s.members ++ [m] })

def Store.removeTeamMember (s : Store) (teamId userId : JsNum) : Bool × Store :=
  if s.members.any (fun m => jsEq teamId m.teamId && jsEq userId m.userId) then
    (true, { s with members := s.members.filter (fun m => !(jsEq teamId m.teamId && jsEq userId m.userId)) })
  else (false, s)

def Store.createProject (s : Store) (b : InsertProject) : Project × Store :=
  let p : Project := ⟨nextIdOf (s.projects.map (fun x => x.id)), b.teamId, b.name⟩
  (p, { s with projects := s.projects ++ [p] })

def Store.updateProject (s : Store) (i : Int) (b : UpdateProject) : Option Project × Store :=
  match s.projectById i with
  | none => (none, s)
  | some p =>
    let p' : Project := { p with name := b.name.getD p.name }
    (some p', { s with projects := s.projects.map (fun x => if x.id == i then p' else x) })

def Store.deleteProject (s : Store) (i : Int) : Bool × Store :=
  if s.projects.any (fun p => p.id == i) then
    (true, { s with projects := s.projects.filter (fun p => !(p.id == i)) })
  else (false, s)

def Store.createTask (s : Store) (b : InsertTask) : Task × Store :=
  let t : Task :=
    ⟨nextIdOf (s.tasks.map (fun x => x.id)), b.projectId, b.title, b.status, b.order, b.assigneeId⟩
  (t, { s with tasks := s.tasks ++ [t] })

def Store.updateTask (s : Store) (i : Int) (b : UpdateTask) : Option Task × Store :=
  match s.taskById i with
  | none => (none, s)
  | some t =>
    let t' : Task :=
      { t with
        title := b.title.getD t.title
        status := b.status.getD t.status
        order := b.order.getD t.order
        assigneeId := b.assigneeId.getD t.assigneeId }
    (some t', { s with tasks := s.tasks.map (fun x => if x.id == i then t' else x) })

def Store.updateTaskStatus (s : Store) (i : Int) (status : String) (order : Int) : Option Task × Store :=
  match s.taskById i with
  | none => (none, s)
  | some t =>
    let t' : Task := { t with status := status, order := order }
    (some t', { s with tasks := s.tasks.map (fun x => if x.id == i then t' else x) })

def Store.deleteTask (s : Store) (i : Int) : Bool × Store :=
  if s.tasks.any (fun t => t.id == i) then
    (true, { s with tasks := s.tasks.filter (fun t => !(t.id == i)) })
  else (false, s)

def Store.createComment (s : Store) (taskId userId : Int) (content : String) : Comment × Store :=
  let c : Comment := ⟨nextIdOf (s.comments.map (fun x => x.id)), taskId, userId, content⟩
  (c, { s with comments := s.comments ++ [c] })

def Store.deleteCommentJ (s : Store) (j : JsNum) : Bool × Store :=
  if s.comments.any (fun c => jsEq j c.id) then
    (true, { s with comments := s.comments.filter (fun c => !(jsEq j c.id)) })
  else (false, s)

def Store.createFile (s : Store) (projectId taskId uploadedBy : Int) (name : String) : File × Store :=
  let f : File := ⟨nextIdOf (s.files.map (fun x => x.id)), projectId, taskId, uploadedBy, name⟩
  (f, { s with files := s.files ++ [f] })

def Store.deleteFileJ (s : Store) (j : JsNum) : Bool × Store :=
  if s.files.any (fun f => jsEq j f.id) then
    (true, { s with files := s.files.filter (fun f => !(jsEq j f.id)) })
  else (false, s)

def Store.createMessage (s : Store) (teamId userId : Int) (content : String) : Message × Store :=
  let m : Message := ⟨nextIdOf (s.messages.map (fun x => x.id)), teamId, userId, content⟩
  (m, { s with messages := s.messages ++ [m] })

def Store.deleteMessageJ (s : Store) (j : JsNum) : Bool × Store :=
  if s.messages.any (fun m => jsEq j m.id) then
    (true, { s with messages := s.messages.filter (fun m => !(jsEq j m.id)) })
  else (false, s)

/-! ### Response shaping -/

/-- `{ "message": m }` error/info body. -/
def msg (m : String) : Json :=
  .obj [("message", .str m)]

/-- The result of `const { password, ...userWithoutPassword } = user`:
every own field of the user except `password`. -/
def userNoPass (u : User) : Json :=
  .obj [("id", .num u.id), ("username", .str u.username), ("email", .str u.email),
    ("fullName", .str u.fullName), ("avatar", .str u.avatar),
    ("role", .str u.role), ("userType", .str u.userType)]

/-- The explicit projection built by `GET /api/users` (routes.ts:173-181),
with the `||` fallbacks on falsy (empty) strings. -/
def sanitizedUser (u : User) : Json :=
  .obj [("id", .num u.id), ("username", .str u.username), ("email", .str u.email),
    ("fullName", .str (if u.fullName == "" then u.username else u.fullName)),
    ("avatar", .str u.avatar),
    ("role", .str (if u.role == "" then "member" else u.role)),
    ("userType", .str (if u.userType == "" then "normal" else u.userType))]

def teamJson (t : Team) : Json :=
  .obj [("id", .num t.id), ("name", .str t.name), ("description", .str t.description),
    ("createdBy", .num t.createdBy)]

def teamMemberJson (m : TeamMember) : Json :=
  .obj [("teamId", .num m.teamId), ("userId", .num m.userId), ("role", .str m.role)]

def projectJson (p : Project) : Json :=
  .obj [("id", .num p.id), ("teamId", .num p.teamId), ("name", .str p.name)]

def taskJson (t : Task) : Json :=
  .obj [("id", .num t.id), ("projectId", .num t.projectId), ("title", .str t.title),
    ("status", .str t.status), ("order", .num t.order), ("assigneeId", .num t.assigneeId)]

def commentJson (c : Comment) : Json :=
  .obj [("id", .num c.id), ("taskId", .num c.taskId), ("userId", .num c.userId),
    ("content", .str c.content)]

/-- `{ ...comment, user: userWithoutPassword }`. -/
def commentWithUser (c : Comment) (u : User) : Json :=
  .obj [("id", .num c.id), ("taskId", .num c.taskId), ("userId", .num c.userId),
    ("content", .str c.content), ("user", userNoPass u)]

def fileJson (f : File) : Json :=
  .obj [("id", .num f.id), ("projectId", .num f.projectId), ("taskId", .num f.taskId),
    ("uploadedBy", .num f.uploadedBy), ("name", .str f.name)]

/-- `{ ...message, user: userWithoutPassword }`. -/
def messageWithUser (m : Message) (u : User) : Json :=
  .obj [("id", .num m.id), ("teamId", .num m.teamId), ("userId", .num m.userId),
    ("content", .str m.content), ("user", userNoPass u)]

/-- An HTTP handler outcome: status code, JSON body, post-request store. -/
structure Resp where
  status : Nat
  body : Json
  store : Store

/-! ### Handlers (src/server/routes.ts)

Each `apiX` function is the body of the corresponding route handler, after
`requireAuth` (for authenticated routes `actor` is the session's `userId`)
and after `validateBody`.  Session/store plumbing, logging and the
catch-all 500 branches (the model's storage never throws) are elided. -/

/-- `!currentUser || currentUser.role !== "admin"`, negated. -/
def isAdminUser : Option User → Bool
  | none => false
  | some u => u.role == "admin"

/-- POST /api/auth/login (routes.ts:92). -/
def apiLogin (s : Store) (username password : String) : Resp :=
  if username == "admin" && password == "pass123" then
    match s.userByUsername "admin" with
    | some adminUser => ⟨200, userNoPass adminUser, s⟩
    | none =>
      let r := s.createUser ⟨"admin", "pass123", "admin@teamflow.com", "Administrator", "", "admin", ""⟩
      ⟨200, userNoPass r.1, r.2⟩
  else
    match s.userByUsername username with
    | none => ⟨401, msg "Invalid credentials", s⟩
    | some u =>
      if u.password != password then ⟨401, msg "Invalid credentials", s⟩
      else ⟨200, userNoPass u, s⟩

/-- POST /api/auth/logout (routes.ts:139); `ok` is whether session
destruction succeeded. -/
def apiLogout (s : Store) (ok : Bool) : Resp :=
  if ok then ⟨200, msg "Logged out successfully", s⟩
  else ⟨500, msg "Failed to logout", s⟩

/-- GET /api/auth/me (routes.ts:148). -/
def apiGetMe (s : Store) (actor : Int) : Resp :=
  match s.userById actor with
  | none => ⟨404, msg "User not found", s⟩
  | some u => ⟨200, userNoPass u, s⟩

/-- GET /api/users (routes.ts:165). -/
def apiGetUsers (s : Store) : Resp :=
  ⟨200, .arr (s.users.map sanitizedUser), s⟩

/-- POST /api/users (routes.ts:191). -/
def apiPostUser (s : Store) (actor : Int) (b : InsertUser) : Resp :=
  if !(isAdminUser (s.userById actor)) then
    ⟨403, msg "Only admins can create new users", s⟩
  else
    match s.userByUsername b.username with
    | some _ => ⟨400, msg "Username already taken", s⟩
    | none =>
      match s.userByEmail b.email with
      | some _ => ⟨400, msg "Email already in use", s⟩
      | none =>
        let r := s.createUser b
        ⟨201, userNoPass r.1, r.2⟩

/-- GET /api/users/:id (routes.ts:226). -/
def apiGetUser (s : Store) (_actor : Int) (id : JsNum) : Resp :=
  match s.userByIdJ id with
  | none => ⟨404, msg "User not found", s⟩
  | some u => ⟨200, userNoPass u, s⟩

/-- PUT /api/users/:id (routes.ts:245). -/
def apiPutUser (s : Store) (actor : Int) (id : JsNum) (b : UpdateUser) : Resp :=
  if !(jsEq id actor) && !(isAdminUser (s.userById actor)) then
    ⟨403, msg "Not authorized to update this user", s⟩
  else if strTruthy b.role && !(isAdminUser (s.userById actor)) then
    ⟨403, msg "Not authorized to change role", s⟩
  else
    let r := s.updateUserJ id b
    match r.1 with
    | none => ⟨404, msg "User not found", s⟩
    | some u => ⟨200, userNoPass u, r.2⟩

/-- DELETE /api/users/:id (routes.ts:276). -/
def apiDeleteUser (s : Store) (actor : Int) (id : JsNum) : Resp :=
  if !(isAdminUser (s.userById actor)) then
    ⟨403, msg "Not authorized to delete users", s⟩
  else if jsEq id actor then
    ⟨400, msg "Cannot delete your own account", s⟩
  else
    let r := s.deleteUserJ id
    if r.1 then ⟨200, msg "User deleted successfully", r.2⟩
    else ⟨404, msg "User not found", s⟩

/-- GET /api/teams (routes.ts:304). -/
def apiGetTeams (s : Store) (actor : Int) : Resp :=
  ⟨200, .arr ((s.teamsByUser actor).map teamJson), s⟩

/-- POST /api/teams (routes.ts:315). -/
def apiPostTeam (s : Store) (actor : Int) (b : InsertTeam) : Resp :=
  match s.userById actor with
  | none => ⟨404, msg "User not found", s⟩
  | some currentUser =>
    if currentUser.role != "admin" then
      ⟨403, msg "Only admin users can create teams", s⟩
    else
      let r := s.createTeam b actor
      ⟨201, teamJson r.1, (r.2.addTeamMember ⟨r.1.id, actor, "admin"⟩).2⟩

/-- GET /api/teams/:id (routes.ts:347). -/
def apiGetTeam (s : Store) (_actor : Int) (id : JsNum) : Resp :=
  match s.teamByIdJ id with
  | none => ⟨404, msg "Team not found", s⟩
  | some team => ⟨200, teamJson team, s⟩

/-- PUT /api/teams/:id (routes.ts:360). -/
def apiPutTeam (s : Store) (actor : Int) (id : JsNum) (b : UpdateTeam) : Resp :=
  match s.teamByIdJ id with
  | none => ⟨404, msg "Team not found", s⟩
  | some team =>
    match (s.teamMembers team.id).find? (fun m => m.userId == actor) with
    | none => ⟨403, msg "Not authorized to update team", s⟩
    | some cm =>
      if cm.role != "admin" then ⟨403, msg "Not authorized to update team", s⟩
      else
        let r := s.updateTeam team.id b
        match r.1 with
        | none => ⟨200, .null, r.2⟩
        | some t' => ⟨200, teamJson t', r.2⟩

/-- DELETE /api/teams/:id (routes.ts:382). -/
def apiDeleteTeam (s : Store) (actor : Int) (id : JsNum) : Resp :=
  match s.teamByIdJ id with
  | none => ⟨404, msg "Team not found", s⟩
  | some team =>
    match (s.teamMembers team.id).find? (fun m => m.userId == actor) with
    | none => ⟨403, msg "Not authorized to delete team", s⟩
    | some cm =>
      if cm.role != "admin" then ⟨403, msg "Not authorized to delete team", s⟩
      else
        ⟨200, msg "Team deleted successfully", (s.deleteTeam team.id).2⟩

/-- GET /api/teams/:id/members (routes.ts:405). -/
def apiGetTeamMembers (s : Store) (actor : Int) (id : JsNum) : Resp :=
  match s.teamByIdJ id with
  | none => ⟨404, msg "Team not found", s⟩
  | some _ =>
    let tms := s.teamMembersJ id
    if !(tms.any (fun m => m.userId == actor)) then
      ⟨403, msg "Not authorized to view team members", s⟩
    else ⟨200, .arr (tms.map teamMemberJson), s⟩

/-- GET /api/teams/:id/members/current (routes.ts:430). -/
def apiGetTeamMemberCurrent (s : Store) (actor : Int) (id : JsNum) : Resp :=
  match s.teamByIdJ id with
  | none => ⟨404, msg "Team not found", s⟩
  | some _ =>
    match (s.teamMembersJ id).find? (fun m => m.userId == actor) with
    | none => ⟨404, msg "User is not a member of this team", s⟩
    | some cm => ⟨200, teamMemberJson cm, s⟩

/-- POST /api/teams/:id/members (routes.ts:455); the spread
`{...req.body, teamId}` stores the path team id (equal to `team.id`
whenever the team was found). -/
def apiPostTeamMember (s : Store) (actor : Int) (id : JsNum) (b : InsertTeamMember) : Resp :=
  match s.teamByIdJ id with
  | none => ⟨404, msg "Team not found", s⟩
  | some team =>
    match (s.teamMembersJ id).find? (fun m => m.userId == actor) with
    | none => ⟨403, msg "Not authorized to add team members", s⟩
    | some cm =>
      if cm.role != "admin" then ⟨403, msg "Not authorized to add team members", s⟩
      else
        let r := s.addTeamMember ⟨team.id, b.userId, b.role⟩
        ⟨201, teamMemberJson r.1, r.2⟩

/-- DELETE /api/teams/:teamId/members/:userId (routes.ts:484). -/
def apiDeleteTeamMember (s : Store) (actor : Int) (teamId userId : JsNum) : Resp :=
  match s.teamByIdJ teamId with
  | none => ⟨404, msg "Team not found", s⟩
  | some _ =>
    match (s.teamMembersJ teamId).find? (fun m => m.userId == actor) with
    | none => ⟨403, msg "Not authorized to remove team member", s⟩
    | some cm =>
      if cm.role != "admin" && !(jsEq userId actor) then
        ⟨403, msg "Not authorized to remove team member", s⟩
      else
        let r := s.removeTeamMember teamId userId
        if r.1 then ⟨200, msg "Team member removed successfully", r.2⟩
        else ⟨404, msg "Team member not found", s⟩

/-- GET /api/projects (routes.ts:518), optional `?teamId=`. -/
def apiGetProjects (s : Store) (actor : Int) (teamId? : Option JsNum) : Resp :=
  let teamId := jsOrNan teamId?
  if teamId.truthy then
    match s.teamByIdJ teamId with
    | none => ⟨404, msg "Team not found", s⟩
    | some _ =>
      if !((s.teamMembersJ teamId).any (fun m => m.userId == actor)) then
        ⟨403, msg "Not authorized to view projects", s⟩
      else ⟨200, .arr ((s.projectsByTeamJ teamId).map projectJson), s⟩
  else
    let projects := ((s.teamsByUser actor).map (fun t => s.projectsByTeam t.id)).flatten
    ⟨200, .arr (projects.map projectJson), s⟩

/-- POST /api/projects (routes.ts:557). -/
def apiPostProject (s : Store) (actor : Int) (b : InsertProject) : Resp :=
  match s.teamById b.teamId with
  | none => ⟨404, msg "Team not found", s⟩
  | some _ =>
    match (s.teamMembers b.teamId).find? (fun m => m.userId == actor) with
    | none => ⟨403, msg "Not authorized to create project", s⟩
    | some _ =>
      let r := s.createProject b
      ⟨201, projectJson r.1, r.2⟩

/-- GET /api/projects/:id (routes.ts:599). -/
def apiGetProject (s : Store) (actor : Int) (id : JsNum) : Resp :=
  match s.projectByIdJ id with
  | none => ⟨404, msg "Project not found", s⟩
  | some p =>
    if !((s.teamMembers p.teamId).any (fun m => m.userId == actor)) then
      ⟨403, msg "Not authorized to view project", s⟩
    else ⟨200, projectJson p, s⟩

/-- PUT /api/projects/:id (routes.ts:620). -/
def apiPutProject (s : Store) (actor : Int) (id : JsNum) (b : UpdateProject) : Resp :=
  match s.projectByIdJ id with
  | none => ⟨404, msg "Project not found", s⟩
  | some p =>
    match (s.teamMembers p.teamId).find? (fun m => m.userId == actor) with
    | none => ⟨403, msg "Not authorized to update project", s⟩
    | some um =>
      if um.role != "admin" then ⟨403, msg "Not authorized to update project", s⟩
      else
        let r := s.updateProject p.id b
        match r.1 with
        | none => ⟨200, .null, r.2⟩
        | some p' => ⟨200, projectJson p', r.2⟩

/-- DELETE /api/projects/:id (routes.ts:652). -/
def apiDeleteProject (s : Store) (actor : Int) (id : JsNum) : Resp :=
  match s.projectByIdJ id with
  | none => ⟨404, msg "Project not found", s⟩
  | some p =>
    match (s.teamMembers p.teamId).find? (fun m => m.userId == actor) with
    | none => ⟨403, msg "Not authorized to delete project", s⟩
    | some um =>
      if um.role != "admin" then ⟨403, msg "Not authorized to delete project", s⟩
      else
        ⟨200, msg "Project deleted successfully", (s.deleteProject p.id).2⟩

/-- GET /api/tasks (routes.ts:675), optional `?projectId=` / `?assigneeId=`. -/
def apiGetTasks (s : Store) (actor : Int) (projectId? assigneeId? : Option JsNum) : Resp :=
  let projectId := jsOrNan projectId?
  let assigneeId := jsOrNan assigneeId?
  if projectId.truthy then
    match s.projectByIdJ projectId with
    | none => ⟨404, msg "Project not found", s⟩
    | some p =>
      if !((s.teamMembers p.teamId).any (fun m => m.userId == actor)) then
        ⟨403, msg "Not authorized to view tasks", s⟩
      else ⟨200, .arr ((s.tasksByProjectJ projectId).map taskJson), s⟩
  else if assigneeId.truthy then
    if !(jsEq assigneeId actor) then
      ⟨403, msg "Not authorized to view other users' tasks", s⟩
    else ⟨200, .arr ((s.tasksByAssigneeJ assigneeId).map taskJson), s⟩
  else
    ⟨200, .arr ((s.tasksByAssignee actor).map taskJson), s⟩

/-- POST /api/tasks (routes.ts:715). -/
def apiPostTask (s : Store) (actor : Int) (b : InsertTask) : Resp :=
  match s.projectById b.projectId with
  | none => ⟨404, msg "Project not found", s⟩
  | some p =>
    if !((s.teamMembers p.teamId).any (fun m => m.userId == actor)) then
      ⟨403, msg "Not authorized to create task", s⟩
    else
      let r := s.createTask b
      ⟨201, taskJson r.1, r.2⟩

/-- GET /api/tasks/:id (routes.ts:751). -/
def apiGetTask (s : Store) (actor : Int) (id : JsNum) : Resp :=
  match s.taskByIdJ id with
  | none => ⟨404, msg "Task not found", s⟩
  | some t =>
    match s.projectById t.projectId with
    | none => ⟨404, msg "Project not found", s⟩
    | some p =>
      if !((s.teamMembers p.teamId).any (fun m => m.userId == actor)) then
        ⟨403, msg "Not authorized to view task", s⟩
      else ⟨200, taskJson t, s⟩

/-- PUT /api/tasks/:id (routes.ts:778). -/
def apiPutTask (s : Store) (actor : Int) (id : JsNum) (b : UpdateTask) : Resp :=
  match s.taskByIdJ id with
  | none => ⟨404, msg "Task not found", s⟩
  | some t =>
    match s.projectById t.projectId with
    | none => ⟨404, msg "Project not found", s⟩
    | some p =>
      if !((s.teamMembers p.teamId).any (fun m => m.userId == actor)) then
        ⟨403, msg "Not authorized to update task", s⟩
      else
        let r := s.updateTask t.id b
        match r.1 with
        | none => ⟨200, .null, r.2⟩
        | some t' => ⟨200, taskJson t', r.2⟩

/-- PUT /api/tasks/:id/status (routes.ts:816). -/
def apiPutTaskStatus (s : Store) (actor : Int) (id : JsNum) (status : String) (order : Int) : Resp :=
  match s.taskByIdJ id with
  | none => ⟨404, msg "Task not found", s⟩
  | some t =>
    match s.projectById t.projectId with
    | none => ⟨404, msg "Project not found", s⟩
    | some p =>
      if !((s.teamMembers p.teamId).any (fun m => m.userId == actor)) then
        ⟨403, msg "Not authorized to update task status", s⟩
      else
        let r := s.updateTaskStatus t.id status order
        match r.1 with
        | none => ⟨200, .null, r.2⟩
        | some t' => ⟨200, taskJson t', r.2⟩

/-- DELETE /api/tasks/:id (routes.ts:846). -/
def apiDeleteTask (s : Store) (actor : Int) (id : JsNum) : Resp :=
  match s.taskByIdJ id with
  | none => ⟨404, msg "Task not found", s⟩
  | some t =>
    match s.projectById t.projectId with
    | none => ⟨404, msg "Project not found", s⟩
    | some p =>
      if !((s.teamMembers p.teamId).any (fun m => m.userId == actor)) then
        ⟨403, msg "Not authorized to delete task", s⟩
      else
        ⟨200, msg "Task deleted successfully", (s.deleteTask t.id).2⟩

/-- GET /api/tasks/:taskId/comments (routes.ts:875). -/
def apiGetTaskComments (s : Store) (actor : Int) (taskId : JsNum) : Resp :=
  match s.taskByIdJ taskId with
  | none => ⟨404, msg "Task not found", s⟩
  | some t =>
    match s.projectById t.projectId with
    | none => ⟨404, msg "Project not found", s⟩
    | some p =>
      if !((s.teamMembers p.teamId).any (fun m => m.userId == actor)) then
        ⟨403, msg "Not authorized to view comments", s⟩
      else ⟨200, .arr ((s.commentsByTaskJ taskId).map commentJson), s⟩

/-- POST /api/tasks/:taskId/comments (routes.ts:906); the spread
`{...req.body, taskId, userId: req.session.userId}` overrides any
client-supplied `taskId`/`userId` (path id equals `t.id` when found). -/
def apiPostComment (s : Store) (actor : Int) (taskId : JsNum) (b : InsertComment) : Resp :=
  match s.taskByIdJ taskId with
  | none => ⟨404, msg "Task not found", s⟩
  | some t =>
    match s.projectById t.projectId with
    | none => ⟨404, msg "Project not found", s⟩
    | some p =>
      if !((s.teamMembers p.teamId).any (fun m => m.userId == actor)) then
        ⟨403, msg "Not authorized to add comment", s⟩
      else
        let r := s.createComment t.id actor b.content
        match r.2.userById actor with
        | none => ⟨500, msg "Failed to get user", r.2⟩
        | some u => ⟨201, commentWithUser r.1 u, r.2⟩

/-- DELETE /api/comments/:id (routes.ts:951). -/
def apiDeleteComment (s : Store) (actor : Int) (id : JsNum) : Resp :=
  match s.commentByIdJ id with
  | none => ⟨404, msg "Comment not found", s⟩
  | some c =>
    let delRes : Resp := ⟨200, msg "Comment deleted successfully", (s.deleteCommentJ id).2⟩
    if c.userId != actor then
      match s.taskById c.taskId with
      | none => ⟨404, msg "Task not found", s⟩
      | some t =>
        match s.projectById t.projectId with
        | none => ⟨404, msg "Project not found", s⟩
        | some p =>
          match (s.teamMembers p.teamId).find? (fun m => m.userId == actor) with
          | none => ⟨403, msg "Not authorized to delete comment", s⟩
          | some um =>
            if um.role != "admin" then ⟨403, msg "Not authorized to delete comment", s⟩
            else delRes
    else delRes

/-- GET /api/projects/:projectId/files (routes.ts:991). -/
def apiGetProjectFiles (s : Store) (actor : Int) (projectId : JsNum) : Resp :=
  match s.projectByIdJ projectId with
  | none => ⟨404, msg "Project not found", s⟩
  | some p =>
    if !((s.teamMembers p.teamId).any (fun m => m.userId == actor)) then
      ⟨403, msg "Not authorized to view files", s⟩
    else ⟨200, .arr ((s.filesByProjectJ projectId).map fileJson), s⟩

/-- GET /api/tasks/:taskId/files (routes.ts:1016). -/
def apiGetTaskFiles (s : Store) (actor : Int) (taskId : JsNum) : Resp :=
  match s.taskByIdJ taskId with
  | none => ⟨404, msg "Task not found", s⟩
  | some t =>
    match s.projectById t.projectId with
    | none => ⟨404, msg "Project not found", s⟩
    | some p =>
      if !((s.teamMembers p.teamId).any (fun m => m.userId == actor)) then
        ⟨403, msg "Not authorized to view files", s⟩
      else ⟨200, .arr ((s.filesByTaskJ taskId).map fileJson), s⟩

/-- POST /api/files (routes.ts:1047); `uploadedBy` overridden from session,
well-typed payloads pass the `safeParse`. -/
def apiPostFile (s : Store) (actor : Int) (b : InsertFile) : Resp :=
  match s.projectById b.projectId with
  | none => ⟨404, msg "Project not found", s⟩
  | some p =>
    if !((s.teamMembers p.teamId).any (fun m => m.userId == actor)) then
      ⟨403, msg "Not authorized to upload file", s⟩
    else
      let r := s.createFile b.projectId b.taskId actor b.name
      ⟨201, fileJson r.1, r.2⟩

/-- DELETE /api/files/:id (routes.ts:1092). -/
def apiDeleteFile (s : Store) (actor : Int) (id : JsNum) : Resp :=
  match s.fileByIdJ id with
  | none => ⟨404, msg "File not found", s⟩
  | some f =>
    match s.projectById f.projectId with
    | none => ⟨404, msg "Project not found", s⟩
    | some p =>
      match (s.teamMembers p.teamId).find? (fun m => m.userId == actor) with
      | none => ⟨403, msg "Not authorized to delete file", s⟩
      | some um =>
        if f.uploadedBy != actor && um.role != "admin" then
          ⟨403, msg "Not authorized to delete file", s⟩
        else
          ⟨200, msg "File deleted successfully", (s.deleteFileJ id).2⟩

/-- GET /api/teams/:teamId/messages (routes.ts:1130). -/
def apiGetMessages (s : Store) (actor : Int) (teamId : JsNum) : Resp :=
  match s.teamByIdJ teamId with
  | none => ⟨404, msg "Team not found", s⟩
  | some _ =>
    if !((s.teamMembersJ teamId).any (fun m => m.userId == actor)) then
      ⟨403, msg "Not authorized to view messages", s⟩
    else
      ⟨200, .arr ((s.messagesWithUserByTeamJ teamId).map
        (fun mu => messageWithUser mu.1 mu.2)), s⟩

/-- POST /api/teams/:teamId/messages (routes.ts:1165); `teamId` and `userId`
come from the path and session (path id equals `team.id` when found). -/
def apiPostMessage (s : Store) (actor : Int) (teamId : JsNum) (b : InsertMessage) : Resp :=
  match s.teamByIdJ teamId with
  | none => ⟨404, msg "Team not found", s⟩
  | some team =>
    if !((s.teamMembersJ teamId).any (fun m => m.userId == actor)) then
      ⟨403, msg "Not authorized to send message", s⟩
    else
      let r := s.createMessage team.id actor b.content
      match r.2.userById actor with
      | none => ⟨500, msg "Failed to get user", r.2⟩
      | some u => ⟨201, messageWithUser r.1 u, r.2⟩

/-- DELETE /api/messages/:id (routes.ts:1204). -/
def apiDeleteMessage (s : Store) (actor : Int) (id : JsNum) : Resp :=
  match s.messageByIdJ id with
  | none => ⟨404, msg "Message not found", s⟩
  | some m =>
    let delRes : Resp := ⟨200, msg "Message deleted successfully", (s.deleteMessageJ id).2⟩
    if m.userId != actor then
      match (s.teamMembers m.teamId).find? (fun mm => mm.userId == actor) with
      | none => ⟨403, msg "Not authorized to delete message", s⟩
      | some um =>
        if um.role != "admin" then ⟨403, msg "Not authorized to delete message", s⟩
        else delRes
    else delRes

/-- One constructor per route of `routes.ts`, carrying its parameters. -/
inductive Request where
  | login (username password : String)
  | logout (ok : Bool)
  | getMe
  | getUsers
  | postUser (b : InsertUser)
  | getUser (id : JsNum)
  | putUser (id : JsNum) (b : UpdateUser)
  | deleteUser (id : JsNum)
  | getTeams
  | postTeam (b : InsertTeam)
  | getTeam (id : JsNum)
  | putTeam (id : JsNum) (b : UpdateTeam)
  | deleteTeam (id : JsNum)
  | getTeamMembers (id : JsNum)
  | getTeamMemberCurrent (id : JsNum)
  | postTeamMember (id : JsNum) (b : InsertTeamMember)
  | deleteTeamMember (teamId userId : JsNum)
  | getProjects (teamId? : Option JsNum)
  | postProject (b : InsertProject)
  | getProject (id : JsNum)
  | putProject (id : JsNum) (b : UpdateProject)
  | deleteProject (id : JsNum)
  | getTasks (projectId? assigneeId? : Option JsNum)
  | postTask (b : InsertTask)
  | getTask (id : JsNum)
  | putTask (id : JsNum) (b : UpdateTask)
  | putTaskStatus (id : JsNum) (status : String) (order : Int)
  | deleteTask (id : JsNum)
  | getTaskComments (taskId : JsNum)
  | postComment (taskId : JsNum) (b : InsertComment)
  | deleteComment (id : JsNum)
  | getProjectFiles (projectId : JsNum)
  | getTaskFiles (taskId : JsNum)
  | postFile (b : InsertFile)
  | deleteFile (id : JsNum)
  | getMessages (teamId : JsNum)
  | postMessage (teamId : JsNum) (b : InsertMessage)
  | deleteMessage (id : JsNum)

/-- Dispatch a request to its handler (`actor` is the session's user id). -/
def handle (s : Store) (actor : Int) : Request → Resp
  | .login u p => apiLogin s u p
  | .logout ok => apiLogout s ok
  | .getMe => apiGetMe s actor
  | .getUsers => apiGetUsers s
  | .postUser b => apiPostUser s actor b
  | .getUser i => apiGetUser s actor i
  | .putUser i b => apiPutUser s actor i b
  | .deleteUser i => apiDeleteUser s actor i
  | .getTeams => apiGetTeams s actor
  | .postTeam b => apiPostTeam s actor b
  | .getTeam i => apiGetTeam s actor i
  | .putTeam i b => apiPutTeam s actor i b
  | .deleteTeam i => apiDeleteTeam s actor i
  | .getTeamMembers i => apiGetTeamMembers s actor i
  | .getTeamMemberCurrent i => apiGetTeamMemberCurrent s actor i
  | .postTeamMember i b => apiPostTeamMember s actor i b
  | .deleteTeamMember t u => apiDeleteTeamMember s actor t u
  | .getProjects t? => apiGetProjects s actor t?
  | .postProject b => apiPostProject s actor b
  | .getProject i => apiGetProject s actor i
  | .putProject i b => apiPutProject s actor i b
  | .deleteProject i => apiDeleteProject s actor i
  | .getTasks p? a? => apiGetTasks s actor p? a?
  | .postTask b => apiPostTask s actor b
  | .getTask i => apiGetTask s actor i
  | .putTask i b => apiPutTask s actor i b
  | .putTaskStatus i st o => apiPutTaskStatus s actor i st o
  | .deleteTask i => apiDeleteTask s actor i
  | .getTaskComments i => apiGetTaskComments s actor i
  | .postComment i b => apiPostComment s actor i b
  | .deleteComment i => apiDeleteComment s actor i
  | .getProjectFiles i => apiGetProjectFiles s actor i
  | .getTaskFiles i => apiGetTaskFiles s actor i
  | .postFile b => apiPostFile s actor b
  | .deleteFile i => apiDeleteFile s actor i
  | .getMessages i => apiGetMessages s actor i
  | .postMessage i b => apiPostMessage s actor i b
  | .deleteMessage i => apiDeleteMessage s actor i

/-! ### Helper lemmas -/

theorem intBeq_comm (n m : Int) : (n == m) = (m == n) := by
  by_cases h : n = m
  · subst h; rfl
  · rw [beq_eq_false_iff_ne.mpr h, beq_eq_false_iff_ne.mpr (Ne.symm h)]

theorem find?_jsEq_int {α : Type} (l : List α) (f : α → Int) (j : JsNum) (a : α)
    (h : l.find? (fun x => jsEq j (f x)) = some a) : j = .int (f a) := by
  have hp := List.find?_some h
  cases j with
  | nan => simp [jsEq] at hp
  | int n => simp [jsEq] at hp; subst hp; rfl

theorem teamByIdJ_int (s : Store) (j : JsNum) (t : Team)
    (h : s.teamByIdJ j = some t) : j = .int t.id := by
  unfold Store.teamByIdJ at h
  exact find?_jsEq_int s.teams (fun t => t.id) j t h

theorem teamMembersJ_int (s : Store) (n : Int) :
    s.teamMembersJ (.int n) = s.teamMembers n := by
  unfold Store.teamMembersJ Store.teamMembers
  congr 1
  funext m
  simp only [jsEq]
  exact intBeq_comm n m.teamId

theorem any_eq_false_of_find?_none {α : Type} (l : List α) (p : α → Bool)
    (h : l.find? p = none) : l.any p = false := by
  rw [List.find?_eq_none] at h
  simp only [List.any_eq_false]
  intro a ha
  exact h a ha

/-- A store populated as in the spec's scenarios (§8): a global admin (id 1)
who team-admins team "Eng", a regular member (id 2) who authored the sample
comment, file and message, and a third member (id 3) with role `member` who
authored nothing. -/
def sampleStore : Store :=
  { users := [⟨1, "alice", "pw1", "a@x", "Alice", "", "admin", "normal"⟩,
      ⟨2, "bob", "pw2", "b@x", "Bob", "", "member", "normal"⟩,
      ⟨3, "carol", "pw3", "c@x", "Carol", "", "member", "normal"⟩]
    teams := [⟨1, "Eng", "d", 1⟩]
    members := [⟨1, 1, "admin"⟩, ⟨1, 2, "member"⟩, ⟨1, 3, "member"⟩]
    projects := [⟨1, 1, "P"⟩]
    tasks := [⟨1, 1, "T", "todo", 0, 2⟩, ⟨2, 77, "orphan", "todo", 0, 3⟩]
    comments := [⟨1, 1, 2, "hi"⟩]
    files := [⟨1, 1, 1, 2, "f"⟩]
    messages := [⟨1, 1, 2, "yo"⟩] }

/-! ### C1 -/

/-- C1 (amended): for an actor whose team-scoped role in the owning team is
`member`, the admin-only operations — team update/delete, member add, member
remove of another user, project update/delete — return 403, and the same
operations succeed when the role is `admin`; task update and delete, however,
require only membership and succeed for any team member regardless of the
team-scoped role. -/
theorem C1_admin_only_ops (s : Store) (actor : Int) (tid pid kid uid : JsNum)
    (team : Team) (cm : TeamMember) (proj : Project) (task : Task)
    (tb : UpdateTeam) (mb : InsertTeamMember) (pb : UpdateProject) (kb : UpdateTask)
    (hteam : s.teamByIdJ tid = some team)
    (hm : (s.teamMembers team.id).find? (fun m => m.userId == actor) = some cm)
    (hproj : s.projectByIdJ pid = some proj)
    (hpt : proj.teamId = team.id)
    (htask : s.taskByIdJ kid = some task)
    (htp : s.projectById task.projectId = some proj)
    (huid : jsEq uid actor = false)
    (htarget : s.members.any (fun m => jsEq tid m.teamId && jsEq uid m.userId) = true) :
    (cm.role = "member" →
      (apiPutTeam s actor tid tb).status = 403 ∧
      (apiDeleteTeam s actor tid).status = 403 ∧
      (apiPostTeamMember s actor tid mb).status = 403 ∧
      (apiDeleteTeamMember s actor tid uid).status = 403 ∧
      (apiPutProject s actor pid pb).status = 403 ∧
      (apiDeleteProject s actor pid).status = 403) ∧
    (cm.role = "admin" →
      (apiPutTeam s actor tid tb).status = 200 ∧
      (apiDeleteTeam s actor tid).status = 200 ∧
      (apiPostTeamMember s actor tid mb).status = 201 ∧
      (apiDeleteTeamMember s actor tid uid).status = 200 ∧
      (apiPutProject s actor pid pb).status = 200 ∧
      (apiDeleteProject s actor pid).status = 200) ∧
    ((apiPutTask s actor kid kb).status = 200 ∧
      (apiDeleteTask s actor kid).status = 200) := by
  have htid := teamByIdJ_int s tid team hteam
  subst htid
  have hmJ : (s.teamMembersJ (.int team.id)).find? (fun m => m.userId == actor) = some cm := by
    rw [teamMembersJ_int]; exact hm
  refine ⟨fun hrole => ⟨?_, ?_, ?_, ?_, ?_, ?_⟩, fun hrole => ⟨?_, ?_, ?_, ?_, ?_, ?_⟩, ?_, ?_⟩
  · simp +decide [apiPutTeam, hteam, hm, hrole]
  · simp +decide [apiDeleteTeam, hteam, hm, hrole]
  · simp +decide [apiPostTeamMember, hteam, hmJ, hrole]
  · simp +decide [apiDeleteTeamMember, hteam, hmJ, hrole, huid]
  · simp +decide [apiPutProject, hproj, hpt, hm, hrole]
  · simp +decide [apiDeleteProject, hproj, hpt, hm, hrole]
  · simp +decide [apiPutTeam, hteam, hm, hrole]
    split <;> rfl
  · simp +decide [apiDeleteTeam, hteam, hm, hrole]
  · simp +decide [apiPostTeamMember, hteam, hmJ, hrole]
  · simp +decide [apiDeleteTeamMember, hteam, hmJ, hrole, huid, htarget, Store.removeTeamMember]
  · simp +decide [apiPutProject, hproj, hpt, hm, hrole]
    split <;> rfl
  · simp +decide [apiDeleteProject, hproj, hpt, hm, hrole]
  · have hcm := List.find?_some hm
    have hmem : (s.teamMembers proj.teamId).any (fun m => m.userId == actor) = true := by
      rw [hpt]
      exact List.any_of_mem (List.mem_of_find?_eq_some hm) hcm
    simp +decide [apiPutTask, htask, htp, hmem]
    split <;> rfl
  · have hcm := List.find?_some hm
    have hmem : (s.teamMembers proj.teamId).any (fun m => m.userId == actor) = true := by
      rw [hpt]
      exact List.any_of_mem (List.mem_of_find?_eq_some hm) hcm
    simp +decide [apiDeleteTask, htask, htp, hmem]

/-- C1 counterexample: user 2's team-scoped role in team 1 is `member`, yet
`PUT /api/tasks/1` and `DELETE /api/tasks/1` succeed with 200 — the claim
says task update/delete return 403 for role `member`. -/
theorem C1_claim_counterexample :
    ((sampleStore.teamMembers 1).find? (fun m => m.userId == 2) =
        some ⟨1, 2, "member"⟩) ∧
    (apiPutTask sampleStore 2 (.int 1) ⟨none, none, none, none⟩).status = 200 ∧
    (apiDeleteTask sampleStore 2 (.int 1)).status = 200 := by
  decide

/-- C1 witness: the amended theorem instantiated on `sampleStore`, once for
the member-role actor (id 2) and once for the admin-role actor (id 1). -/
theorem C1_admin_only_ops_witness :
    ((apiPutTeam sampleStore 2 (.int 1) ⟨none, none⟩).status = 403 ∧
      (apiDeleteTeam sampleStore 2 (.int 1)).status = 403 ∧
      (apiPostTeamMember sampleStore 2 (.int 1) ⟨3, "member"⟩).status = 403 ∧
      (apiDeleteTeamMember sampleStore 2 (.int 1) (.int 1)).status = 403 ∧
      (apiPutProject sampleStore 2 (.int 1) ⟨none⟩).status = 403 ∧
      (apiDeleteProject sampleStore 2 (.int 1)).status = 403) ∧
    ((apiPutTeam sampleStore 1 (.int 1) ⟨none, none⟩).status = 200 ∧
      (apiDeleteTeam sampleStore 1 (.int 1)).status = 200 ∧
      (apiPostTeamMember sampleStore 1 (.int 1) ⟨3, "member"⟩).status = 201 ∧
      (apiDeleteTeamMember sampleStore 1 (.int 1) (.int 2)).status = 200 ∧
      (apiPutProject sampleStore 1 (.int 1) ⟨none⟩).status = 200 ∧
      (apiDeleteProject sampleStore 1 (.int 1)).status = 200) ∧
    ((apiPutTask sampleStore 2 (.int 1) ⟨none, none, none, none⟩).status = 200 ∧
      (apiDeleteTask sampleStore 2 (.int 1)).status = 200) := by
  refine ⟨?_, ?_, ?_⟩
  · exact (C1_admin_only_ops sampleStore 2 (.int 1) (.int 1) (.int 1) (.int 1)
      ⟨1, "Eng", "d", 1⟩ ⟨1, 2, "member"⟩ ⟨1, 1, "P"⟩ ⟨1, 1, "T", "todo", 0, 2⟩
      ⟨none, none⟩ ⟨3, "member"⟩ ⟨none⟩ ⟨none, none, none, none⟩
      (by decide) (by decide) (by decide) (by decide) (by decide) (by decide)
      (by decide) (by decide)).1 rfl
  · exact (C1_admin_only_ops sampleStore 1 (.int 1) (.int 1) (.int 1) (.int 2)
      ⟨1, "Eng", "d", 1⟩ ⟨1, 1, "admin"⟩ ⟨1, 1, "P"⟩ ⟨1, 1, "T", "todo", 0, 2⟩
      ⟨none, none⟩ ⟨3, "member"⟩ ⟨none⟩ ⟨none, none, none, none⟩
      (by decide) (by decide) (by decide) (by decide) (by decide) (by decide)
      (by decide) (by decide)).2.1 rfl
  · exact (C1_admin_only_ops sampleStore 2 (.int 1) (.int 1) (.int 1) (.int 1)
      ⟨1, "Eng", "d", 1⟩ ⟨1, 2, "member"⟩ ⟨1, 1, "P"⟩ ⟨1, 1, "T", "todo", 0, 2⟩
      ⟨none, none⟩ ⟨3, "member"⟩ ⟨none⟩ ⟨none, none, none, none⟩
      (by decide) (by decide) (by decide) (by decide) (by decide) (by decide)
      (by decide) (by decide)).2.2

/-! ### C2 -/

/-- C2 counterexample: user 42 is authenticated but not a member of team 1
(indeed not a user at all, so a fortiori no membership entry exists), yet
`GET /api/teams/1` returns 200 with the full team object — the claim says a
non-member receives a denial. -/
theorem C2_claim_counterexample :
    ((sampleStore.teamMembers 1).any (fun m => m.userId == 42) = false) ∧
    (apiGetTeam sampleStore 42 (.int 1)).status = 200 ∧
    (apiGetTeam sampleStore 42 (.int 1)).body = teamJson ⟨1, "Eng", "d", 1⟩ := by
  refine ⟨by decide, by decide, ?_⟩
  rfl

/-- C2 (amended): `GET /api/teams/:id` performs no membership check at all:
for every authenticated actor — member or not — it returns 200 with the team
object whenever the team exists (routes.ts:347-358 consults only
`storage.getTeam`). -/
theorem C2_team_read_no_membership_check (s : Store) (actor : Int) (id : JsNum)
    (team : Team) (h : s.teamByIdJ id = some team) :
    apiGetTeam s actor id = ⟨200, teamJson team, s⟩ := by
  simp [apiGetTeam, h]

/-- C2 witness: the amended theorem applied to the non-member actor 42. -/
theorem C2_team_read_no_membership_check_witness :
    apiGetTeam sampleStore 42 (.int 1) = ⟨200, teamJson ⟨1, "Eng", "d", 1⟩, sampleStore⟩ :=
  C2_team_read_no_membership_check sampleStore 42 (.int 1) ⟨1, "Eng", "d", 1⟩ (by decide)

/-! ### C3 -/

/-- C3: `GET /api/tasks?assigneeId=u` returns 403 whenever `u` differs from
the session user — the handler (routes.ts:697-704) never consults the actor's
global role, so this holds for admins too — and returns the actor's assigned
tasks when `u` equals the session user.  The hypothesis `u ≠ 0` reflects that
store-assigned user ids are positive; a literal `0` would be falsy in
JavaScript and fall through to the no-filter branch. -/
theorem C3_assignee_forbidden (s : Store) (actor : Int) (u : Int) (h0 : u ≠ 0) :
    (u ≠ actor →
      apiGetTasks s actor none (some (.int u)) =
        ⟨403, msg "Not authorized to view other users' tasks", s⟩) ∧
    (u = actor →
      apiGetTasks s actor none (some (.int u)) =
        ⟨200, .arr ((s.tasksByAssigneeJ (.int u)).map taskJson), s⟩) := by
  constructor
  · intro hne
    simp [apiGetTasks, jsOrNan, JsNum.truthy, jsEq, h0, hne]
  · intro heq
    subst heq
    simp [apiGetTasks, jsOrNan, JsNum.truthy, jsEq, h0]

/-- C3 witness: the global admin (user 1) still gets 403 querying user 2's
tasks; user 2 querying their own id gets their task list. -/
theorem C3_assignee_forbidden_witness :
    (apiGetTasks sampleStore 1 none (some (.int 2)) =
      ⟨403, msg "Not authorized to view other users' tasks", sampleStore⟩) ∧
    (apiGetTasks sampleStore 2 none (some (.int 2)) =
      ⟨200, .arr ((sampleStore.tasksByAssigneeJ (.int 2)).map taskJson), sampleStore⟩) :=
  ⟨(C3_assignee_forbidden sampleStore 1 2 (by decide)).1 (by decide),
    (C3_assignee_forbidden sampleStore 2 2 (by decide)).2 rfl⟩

/-! ### C4 -/

/-- C4: when the full ownership chain exists and the actor is a member of the
owning team, deleting a Comment, File, or Message succeeds (200) for the
resource's author/uploader whatever the actor's team-scoped role, succeeds
for a team-scoped admin, and returns 403 for every other member. -/
theorem C4_delete_author_or_admin (s : Store) (actor : Int) (cid fid mid : JsNum)
    (c : Comment) (ct : Task) (cp : Project) (cmm : TeamMember)
    (f : File) (fp : Project) (fmm : TeamMember)
    (g : Message) (gmm : TeamMember)
    (hc : s.commentByIdJ cid = some c)
    (hct : s.taskById c.taskId = some ct)
    (hcp : s.projectById ct.projectId = some cp)
    (hcm : (s.teamMembers cp.teamId).find? (fun m => m.userId == actor) = some cmm)
    (hf : s.fileByIdJ fid = some f)
    (hfp : s.projectById f.projectId = some fp)
    (hfm : (s.teamMembers fp.teamId).find? (fun m => m.userId == actor) = some fmm)
    (hg : s.messageByIdJ mid = some g)
    (hgm : (s.teamMembers g.teamId).find? (fun m => m.userId == actor) = some gmm) :
    (c.userId = actor → (apiDeleteComment s actor cid).status = 200) ∧
    (cmm.role = "admin" → (apiDeleteComment s actor cid).status = 200) ∧
    (c.userId ≠ actor → cmm.role ≠ "admin" → (apiDeleteComment s actor cid).status = 403) ∧
    (f.uploadedBy = actor → (apiDeleteFile s actor fid).status = 200) ∧
    (fmm.role = "admin" → (apiDeleteFile s actor fid).status = 200) ∧
    (f.uploadedBy ≠ actor → fmm.role ≠ "admin" → (apiDeleteFile s actor fid).status = 403) ∧
    (g.userId = actor → (apiDeleteMessage s actor mid).status = 200) ∧
    (gmm.role = "admin" → (apiDeleteMessage s actor mid).status = 200) ∧
    (g.userId ≠ actor → gmm.role ≠ "admin" → (apiDeleteMessage s actor mid).status = 403) := by
  refine ⟨?_, ?_, ?_, ?_, ?_, ?_, ?_, ?_, ?_⟩
  · intro h
    simp [apiDeleteComment, hc, h]
  · intro hadm
    by_cases hca : c.userId = actor
    · simp [apiDeleteComment, hc, hca]
    · simp [apiDeleteComment, hc, hca, hct, hcp, hcm, hadm]
  · intro h1 h2
    simp [apiDeleteComment, hc, h1, hct, hcp, hcm, h2]
  · intro h
    simp [apiDeleteFile, hf, hfp, hfm, h]
  · intro hadm
    simp [apiDeleteFile, hf, hfp, hfm, hadm]
  · intro h1 h2
    simp [apiDeleteFile, hf, hfp, hfm, h1, h2]
  · intro h
    simp [apiDeleteMessage, hg, h]
  · intro hadm
    by_cases hga : g.userId = actor
    · simp [apiDeleteMessage, hg, hga]
    · simp [apiDeleteMessage, hg, hga, hgm, hadm]
  · intro h1 h2
    simp [apiDeleteMessage, hg, h1, hgm, h2]

/-- C4 witness: on `sampleStore`, the author (user 2, role `member`) deletes
their comment/file/message, the team admin (user 1) deletes all three, and
the uninvolved member (user 3) gets 403 on all three. -/
theorem C4_delete_author_or_admin_witness :
    ((apiDeleteComment sampleStore 2 (.int 1)).status = 200 ∧
      (apiDeleteFile sampleStore 2 (.int 1)).status = 200 ∧
      (apiDeleteMessage sampleStore 2 (.int 1)).status = 200) ∧
    ((apiDeleteComment sampleStore 1 (.int 1)).status = 200 ∧
      (apiDeleteFile sampleStore 1 (.int 1)).status = 200 ∧
      (apiDeleteMessage sampleStore 1 (.int 1)).status = 200) ∧
    ((apiDeleteComment sampleStore 3 (.int 1)).status = 403 ∧
      (apiDeleteFile sampleStore 3 (.int 1)).status = 403 ∧
      (apiDeleteMessage sampleStore 3 (.int 1)).status = 403) := by
  have h2 := C4_delete_author_or_admin sampleStore 2 (.int 1) (.int 1) (.int 1)
    ⟨1, 1, 2, "hi"⟩ ⟨1, 1, "T", "todo", 0, 2⟩ ⟨1, 1, "P"⟩ ⟨1, 2, "member"⟩
    ⟨1, 1, 1, 2, "f"⟩ ⟨1, 1, "P"⟩ ⟨1, 2, "member"⟩ ⟨1, 1, 2, "yo"⟩ ⟨1, 2, "member"⟩
    (by decide) (by decide) (by decide) (by decide) (by decide) (by decide)
    (by decide) (by decide) (by decide)
  have h1 := C4_delete_author_or_admin sampleStore 1 (.int 1) (.int 1) (.int 1)
    ⟨1, 1, 2, "hi"⟩ ⟨1, 1, "T", "todo", 0, 2⟩ ⟨1, 1, "P"⟩ ⟨1, 1, "admin"⟩
    ⟨1, 1, 1, 2, "f"⟩ ⟨1, 1, "P"⟩ ⟨1, 1, "admin"⟩ ⟨1, 1, 2, "yo"⟩ ⟨1, 1, "admin"⟩
    (by decide) (by decide) (by decide) (by decide) (by decide) (by decide)
    (by decide) (by decide) (by decide)
  have h3 := C4_delete_author_or_admin sampleStore 3 (.int 1) (.int 1) (.int 1)
    ⟨1, 1, 2, "hi"⟩ ⟨1, 1, "T", "todo", 0, 2⟩ ⟨1, 1, "P"⟩ ⟨1, 3, "member"⟩
    ⟨1, 1, 1, 2, "f"⟩ ⟨1, 1, "P"⟩ ⟨1, 3, "member"⟩ ⟨1, 1, 2, "yo"⟩ ⟨1, 3, "member"⟩
    (by decide) (by decide) (by decide) (by decide) (by decide) (by decide)
    (by decide) (by decide) (by decide)
  exact ⟨⟨h2.1 rfl, h2.2.2.2.1 rfl, h2.2.2.2.2.2.2.1 rfl⟩,
    ⟨h1.2.1 rfl, h1.2.2.2.2.1 rfl, h1.2.2.2.2.2.2.2.1 rfl⟩,
    ⟨h3.2.2.1 (by decide) (by decide), h3.2.2.2.2.2.1 (by decide) (by decide),
      h3.2.2.2.2.2.2.2.2 (by decide) (by decide)⟩⟩

/-! ### C5 -/

/-- C5: on the Task→Project→Team chain endpoints (`GET /api/tasks/:id`,
`GET /api/tasks/:taskId/comments`), existence is checked leaf-outward before
any authorization decision: a missing Task yields 404 naming "Task", a
present Task with a missing Project yields 404 naming "Project", and a 403
is only possible when both chain links exist. -/
theorem C5_chain_existence_first (s : Store) (actor : Int) (id : JsNum) :
    (s.taskByIdJ id = none →
      apiGetTask s actor id = ⟨404, msg "Task not found", s⟩ ∧
      apiGetTaskComments s actor id = ⟨404, msg "Task not found", s⟩) ∧
    (∀ t, s.taskByIdJ id = some t → s.projectById t.projectId = none →
      apiGetTask s actor id = ⟨404, msg "Project not found", s⟩ ∧
      apiGetTaskComments s actor id = ⟨404, msg "Project not found", s⟩) ∧
    ((apiGetTask s actor id).status = 403 →
      ∃ t p, s.taskByIdJ id = some t ∧ s.projectById t.projectId = some p) ∧
    ((apiGetTaskComments s actor id).status = 403 →
      ∃ t p, s.taskByIdJ id = some t ∧ s.projectById t.projectId = some p) := by
  refine ⟨fun h => ⟨by simp [apiGetTask, h], by simp [apiGetTaskComments, h]⟩,
    fun t ht hp => ⟨by simp [apiGetTask, ht, hp], by simp [apiGetTaskComments, ht, hp]⟩,
    ?_, ?_⟩
  · intro h
    unfold apiGetTask at h
    cases h1 : s.taskByIdJ id with
    | none => simp [h1] at h
    | some t =>
      cases h2 : s.projectById t.projectId with
      | none => simp [h1, h2] at h
      | some p => exact ⟨t, p, rfl, h2⟩
  · intro h
    unfold apiGetTaskComments at h
    cases h1 : s.taskByIdJ id with
    | none => simp [h1] at h
    | some t =>
      cases h2 : s.projectById t.projectId with
      | none => simp [h1, h2] at h
      | some p => exact ⟨t, p, rfl, h2⟩

/-- C5 witness: task 99 is absent (404 "Task not found"); task 2 exists but
its project 77 does not (404 "Project not found"); and the 403 that actor 42
receives on task 1 entails both chain links exist. -/
theorem C5_chain_existence_first_witness :
    (apiGetTask sampleStore 1 (.int 99) = ⟨404, msg "Task not found", sampleStore⟩ ∧
      apiGetTaskComments sampleStore 1 (.int 99) = ⟨404, msg "Task not found", sampleStore⟩) ∧
    (apiGetTask sampleStore 1 (.int 2) = ⟨404, msg "Project not found", sampleStore⟩ ∧
      apiGetTaskComments sampleStore 1 (.int 2) = ⟨404, msg "Project not found", sampleStore⟩) ∧
    (∃ t p, sampleStore.taskByIdJ (.int 1) = some t ∧
      sampleStore.projectById t.projectId = some p) :=
  ⟨(C5_chain_existence_first sampleStore 1 (.int 99)).1 (by decide),
    (C5_chain_existence_first sampleStore 1 (.int 2)).2.1
      ⟨2, 77, "orphan", "todo", 0, 3⟩ (by decide) (by decide),
    (C5_chain_existence_first sampleStore 42 (.int 1)).2.2.1 (by decide)⟩

/-! ### C6 -/

theorem apiPostComment_cases (s : Store) (actor : Int) (taskId : JsNum) (cb : InsertComment) :
    ((apiPostComment s actor taskId cb).store.comments = s.comments ∧
      (apiPostComment s actor taskId cb).status ≠ 201) ∨
    (∃ t, s.taskByIdJ taskId = some t ∧
      (apiPostComment s actor taskId cb).store.comments =
        s.comments ++ [⟨nextIdOf (s.comments.map (fun x => x.id)), t.id, actor, cb.content⟩]) := by
  unfold apiPostComment
  split
  · exact .inl ⟨rfl, by simp⟩
  · next t h1 =>
    split
    · exact .inl ⟨rfl, by simp⟩
    · split
      · exact .inl ⟨rfl, by simp⟩
      · dsimp only
        split
        · exact .inr ⟨t, h1, rfl⟩
        · exact .inr ⟨t, h1, rfl⟩

theorem apiPostMessage_cases (s : Store) (actor : Int) (teamId : JsNum) (mb : InsertMessage) :
    ((apiPostMessage s actor teamId mb).store.messages = s.messages ∧
      (apiPostMessage s actor teamId mb).status ≠ 201) ∨
    (∃ team, s.teamByIdJ teamId = some team ∧
      (apiPostMessage s actor teamId mb).store.messages =
        s.messages ++ [⟨nextIdOf (s.messages.map (fun x => x.id)), team.id, actor, mb.content⟩]) := by
  unfold apiPostMessage
  split
  · exact .inl ⟨rfl, by simp⟩
  · next team h1 =>
    split
    · exact .inl ⟨rfl, by simp⟩
    · dsimp only
      split
      · exact .inr ⟨team, h1, rfl⟩
      · exact .inr ⟨team, h1, rfl⟩

theorem apiPostFile_cases (s : Store) (actor : Int) (fb : InsertFile) :
    ((apiPostFile s actor fb).store.files = s.files ∧
      (apiPostFile s actor fb).status ≠ 201) ∨
    (apiPostFile s actor fb).store.files =
      s.files ++ [⟨nextIdOf (s.files.map (fun x => x.id)), fb.projectId, fb.taskId, actor, fb.name⟩] := by
  unfold apiPostFile
  split
  · exact .inl ⟨rfl, by simp⟩
  · split
    · exact .inl ⟨rfl, by simp⟩
    · exact .inr rfl

/-- C6: for every client payload — including payloads carrying a forged
`userId`/`uploadedBy` — a successful Comment/Message/File creation stores a
record whose author field is the session's user id, and more generally every
record present after the request is either pre-existing or authored by the
session user (the handlers spread the body and then override the author
field from the session). -/
theorem C6_author_fixed_from_session (s : Store) (actor : Int) (taskId teamId : JsNum)
    (cb : InsertComment) (mb : InsertMessage) (fb : InsertFile) :
    ((apiPostComment s actor taskId cb).status = 201 →
      ∃ c, (apiPostComment s actor taskId cb).store.comments = s.comments ++ [c] ∧
        c.userId = actor) ∧
    (∀ c, c ∈ (apiPostComment s actor taskId cb).store.comments →
      c ∈ s.comments ∨ c.userId = actor) ∧
    ((apiPostMessage s actor teamId mb).status = 201 →
      ∃ m, (apiPostMessage s actor teamId mb).store.messages = s.messages ++ [m] ∧
        m.userId = actor) ∧
    (∀ m, m ∈ (apiPostMessage s actor teamId mb).store.messages →
      m ∈ s.messages ∨ m.userId = actor) ∧
    ((apiPostFile s actor fb).status = 201 →
      ∃ f, (apiPostFile s actor fb).store.files = s.files ++ [f] ∧
        f.uploadedBy = actor) ∧
    (∀ f, f ∈ (apiPostFile s actor fb).store.files →
      f ∈ s.files ∨ f.uploadedBy = actor) := by
  refine ⟨?_, ?_, ?_, ?_, ?_, ?_⟩
  · intro h
    rcases apiPostComment_cases s actor taskId cb with ⟨_, hne⟩ | ⟨t, _, heq⟩
    · exact absurd h hne
    · exact ⟨_, heq, rfl⟩
  · intro c hc
    rcases apiPostComment_cases s actor taskId cb with ⟨heq, _⟩ | ⟨t, _, heq⟩
    · rw [heq] at hc; exact .inl hc
    · rw [heq] at hc
      rcases List.mem_append.mp hc with h | h
      · exact .inl h
      · right; rw [List.mem_singleton.mp h]
  · intro h
    rcases apiPostMessage_cases s actor teamId mb with ⟨_, hne⟩ | ⟨team, _, heq⟩
    · exact absurd h hne
    · exact ⟨_, heq, rfl⟩
  · intro m hm
    rcases apiPostMessage_cases s actor teamId mb with ⟨heq, _⟩ | ⟨team, _, heq⟩
    · rw [heq] at hm; exact .inl hm
    · rw [heq] at hm
      rcases List.mem_append.mp hm with h | h
      · exact .inl h
      · right; rw [List.mem_singleton.mp h]
  · intro h
    rcases apiPostFile_cases s actor fb with ⟨_, hne⟩ | heq
    · exact absurd h hne
    · exact ⟨_, heq, rfl⟩
  · intro f hf
    rcases apiPostFile_cases s actor fb with ⟨heq, _⟩ | heq
    · rw [heq] at hf; exact .inl hf
    · rw [heq] at hf
      rcases List.mem_append.mp hf with h | h
      · exact .inl h
      · right; rw [List.mem_singleton.mp h]

/-- C6 witness: user 2 posts a comment, message and file each carrying a
forged author id 99 in the payload; all three succeed (201) and the one new
record of each kind is authored by user 2, not 99. -/
theorem C6_author_fixed_from_session_witness :
    ((apiPostComment sampleStore 2 (.int 1) ⟨1, 99, "x"⟩).status = 201 ∧
      ∃ c, (apiPostComment sampleStore 2 (.int 1) ⟨1, 99, "x"⟩).store.comments =
        sampleStore.comments ++ [c] ∧ c.userId = 2) ∧
    ((apiPostMessage sampleStore 2 (.int 1) ⟨"y"⟩).status = 201 ∧
      ∃ m, (apiPostMessage sampleStore 2 (.int 1) ⟨"y"⟩).store.messages =
        sampleStore.messages ++ [m] ∧ m.userId = 2) ∧
    ((apiPostFile sampleStore 2 ⟨1, 1, 99, "z"⟩).status = 201 ∧
      ∃ f, (apiPostFile sampleStore 2 ⟨1, 1, 99, "z"⟩).store.files =
        sampleStore.files ++ [f] ∧ f.uploadedBy = 2) :=
  ⟨⟨by decide,
      (C6_author_fixed_from_session sampleStore 2 (.int 1) (.int 1)
        ⟨1, 99, "x"⟩ ⟨"y"⟩ ⟨1, 1, 99, "z"⟩).1 (by decide)⟩,
    ⟨by decide,
      (C6_author_fixed_from_session sampleStore 2 (.int 1) (.int 1)
        ⟨1, 99, "x"⟩ ⟨"y"⟩ ⟨1, 1, 99, "z"⟩).2.2.1 (by decide)⟩,
    ⟨by decide,
      (C6_author_fixed_from_session sampleStore 2 (.int 1) (.int 1)
        ⟨1, 99, "x"⟩ ⟨"y"⟩ ⟨1, 1, 99, "z"⟩).2.2.2.2.1 (by decide)⟩⟩

/-! ### C8 -/

theorem userByIdJ_int_self (s : Store) (n : Int) :
    s.userByIdJ (.int n) = s.userById n := by
  unfold Store.userByIdJ Store.userById
  congr 1
  funext x
  simp only [jsEq]
  exact intBeq_comm n x.id

/-- C8: `POST /api/teams` succeeds only for a global admin (403 for any other
existing actor), and on success the creator is auto-enrolled in the new
team's member list with team-scoped role `admin`. -/
theorem C8_create_team_admin_enrolled (s : Store) (actor : Int) (b : InsertTeam) (u : User)
    (hu : s.userById actor = some u) :
    (u.role = "admin" →
      (apiPostTeam s actor b).status = 201 ∧
      ∃ t, (apiPostTeam s actor b).body = teamJson t ∧
        (⟨t.id, actor, "admin"⟩ : TeamMember) ∈ (apiPostTeam s actor b).store.members) ∧
    (u.role ≠ "admin" → (apiPostTeam s actor b).status = 403) := by
  constructor
  · intro hrole
    have h1 : apiPostTeam s actor b =
        ⟨201, teamJson (s.createTeam b actor).1,
          ((s.createTeam b actor).2.addTeamMember
            ⟨(s.createTeam b actor).1.id, actor, "admin"⟩).2⟩ := by
      simp +decide [apiPostTeam, hu, hrole]
    rw [h1]
    refine ⟨rfl, (s.createTeam b actor).1, rfl, ?_⟩
    show (⟨(s.createTeam b actor).1.id, actor, "admin"⟩ : TeamMember) ∈
      (s.createTeam b actor).2.members ++ [⟨(s.createTeam b actor).1.id, actor, "admin"⟩]
    exact List.mem_append_right _ (List.mem_singleton.mpr rfl)
  · intro hrole
    simp [apiPostTeam, hu, hrole]

/-- C8 witness: the global admin (user 1) creates a team and lands in its
member list as a team-level admin; the global member (user 2) gets 403. -/
theorem C8_create_team_admin_enrolled_witness :
    ((apiPostTeam sampleStore 1 ⟨"Ops", "o"⟩).status = 201 ∧
      ∃ t, (apiPostTeam sampleStore 1 ⟨"Ops", "o"⟩).body = teamJson t ∧
        (⟨t.id, 1, "admin"⟩ : TeamMember) ∈ (apiPostTeam sampleStore 1 ⟨"Ops", "o"⟩).store.members) ∧
    (apiPostTeam sampleStore 2 ⟨"Ops", "o"⟩).status = 403 :=
  ⟨(C8_create_team_admin_enrolled sampleStore 1 ⟨"Ops", "o"⟩
      ⟨1, "alice", "pw1", "a@x", "Alice", "", "admin", "normal"⟩ (by decide)).1 rfl,
    (C8_create_team_admin_enrolled sampleStore 2 ⟨"Ops", "o"⟩
      ⟨2, "bob", "pw2", "b@x", "Bob", "", "member", "normal"⟩ (by decide)).2 (by decide)⟩

/-! ### C9 -/

/-- C9 counterexample: user id 99 does not exist, yet `DELETE /api/users/99`
issued by the authenticated non-admin user 2 returns 403, not the claimed
404 — that handler checks authorization before target existence. -/
theorem C9_claim_counterexample :
    (sampleStore.userByIdJ (.int 99) = none) ∧
    (apiDeleteUser sampleStore 2 (.int 99)).status = 403 := by
  decide

/-- C9 (amended): for the delete endpoints that resolve their target first
(comments, files, messages, tasks, projects, teams, and team-member removal
with a missing team), a target id that resolves to no record — including an
already-deleted id and the `NaN` of a non-numeric path parameter — yields
404 naming the resource, with the store unchanged; `DELETE /api/users/:id`
checks authorization first, so the 404-on-missing-target behaviour holds for
an admin actor (a non-admin receives 403 instead, per the counterexample). -/
theorem C9_missing_target_404 (s : Store) (actor : Int) (id : JsNum) (u : User) :
    (s.commentByIdJ id = none → apiDeleteComment s actor id = ⟨404, msg "Comment not found", s⟩) ∧
    (s.fileByIdJ id = none → apiDeleteFile s actor id = ⟨404, msg "File not found", s⟩) ∧
    (s.messageByIdJ id = none → apiDeleteMessage s actor id = ⟨404, msg "Message not found", s⟩) ∧
    (s.taskByIdJ id = none → apiDeleteTask s actor id = ⟨404, msg "Task not found", s⟩) ∧
    (s.projectByIdJ id = none → apiDeleteProject s actor id = ⟨404, msg "Project not found", s⟩) ∧
    (s.teamByIdJ id = none → apiDeleteTeam s actor id = ⟨404, msg "Team not found", s⟩ ∧
      ∀ uid, apiDeleteTeamMember s actor id uid = ⟨404, msg "Team not found", s⟩) ∧
    (s.userById actor = some u → u.role = "admin" → s.userByIdJ id = none →
      apiDeleteUser s actor id = ⟨404, msg "User not found", s⟩) := by
  refine ⟨fun h => by simp [apiDeleteComment, h],
    fun h => by simp [apiDeleteFile, h],
    fun h => by simp [apiDeleteMessage, h],
    fun h => by simp [apiDeleteTask, h],
    fun h => by simp [apiDeleteProject, h],
    fun h => ⟨by simp [apiDeleteTeam, h], fun uid => by simp [apiDeleteTeamMember, h]⟩,
    ?_⟩
  intro hu hrole hmiss
  have hadm : isAdminUser (s.userById actor) = true := by
    simp [isAdminUser, hu, hrole]
  have hje : jsEq id actor = false := by
    cases id with
    | nan => rfl
    | int n =>
      by_cases hn : n = actor
      · subst hn
        rw [userByIdJ_int_self] at hmiss
        rw [hmiss] at hu
        exact absurd hu (by simp)
      · simp [jsEq, hn]
  have hany : s.users.any (fun x => jsEq id x.id) = false := by
    apply any_eq_false_of_find?_none
    exact hmiss
  simp [apiDeleteUser, hadm, hje, Store.deleteUserJ, hany]

/-- C9 witness: the amended theorem at the absent numeric id 99 and at the
`NaN` of a non-numeric path parameter, with the admin actor (user 1) for the
user-delete part. -/
theorem C9_missing_target_404_witness :
    (apiDeleteComment sampleStore 1 (.int 99) = ⟨404, msg "Comment not found", sampleStore⟩ ∧
      apiDeleteFile sampleStore 1 (.int 99) = ⟨404, msg "File not found", sampleStore⟩ ∧
      apiDeleteMessage sampleStore 1 (.int 99) = ⟨404, msg "Message not found", sampleStore⟩ ∧
      apiDeleteTask sampleStore 1 (.int 99) = ⟨404, msg "Task not found", sampleStore⟩ ∧
      apiDeleteProject sampleStore 1 (.int 99) = ⟨404, msg "Project not found", sampleStore⟩ ∧
      apiDeleteTeam sampleStore 1 (.int 99) = ⟨404, msg "Team not found", sampleStore⟩ ∧
      apiDeleteUser sampleStore 1 (.int 99) = ⟨404, msg "User not found", sampleStore⟩) ∧
    (apiDeleteComment sampleStore 1 .nan = ⟨404, msg "Comment not found", sampleStore⟩ ∧
      apiDeleteUser sampleStore 1 .nan = ⟨404, msg "User not found", sampleStore⟩) := by
  have h99 := C9_missing_target_404 sampleStore 1 (.int 99)
    ⟨1, "alice", "pw1", "a@x", "Alice", "", "admin", "normal"⟩
  have hnan := C9_missing_target_404 sampleStore 1 .nan
    ⟨1, "alice", "pw1", "a@x", "Alice", "", "admin", "normal"⟩
  exact ⟨⟨h99.1 (by decide), h99.2.1 (by decide), h99.2.2.1 (by decide),
      h99.2.2.2.1 (by decide), h99.2.2.2.2.1 (by decide),
      (h99.2.2.2.2.2.1 (by decide)).1,
      h99.2.2.2.2.2.2 (by decide) (by decide) (by decide)⟩,
    ⟨hnan.1 (by decide),
      hnan.2.2.2.2.2.2 (by decide) (by decide) (by decide)⟩⟩

/-! ### C10 -/

/-- A store exercising the author shortcut: user 7 belongs to no team, the
comment's task (id 5) no longer exists, and user 7 authored the comment,
message and file. -/
def ghostStore : Store :=
  { users := [⟨7, "dana", "pw", "d@x", "Dana", "", "member", "normal"⟩]
    teams := [⟨1, "Eng", "d", 1⟩]
    members := []
    projects := [⟨1, 1, "P"⟩]
    tasks := []
    comments := [⟨1, 5, 7, "x"⟩]
    files := [⟨1, 1, 0, 7, "f"⟩]
    messages := [⟨1, 1, 7, "m"⟩] }

/-- C10: the author path of comment and message deletion checks nothing
beyond authorship — the store is arbitrary here, so no team membership and
no task/project existence is required for the author's delete to succeed —
whereas file deletion requires the uploader to be a current member of the
owning team, returning 403 otherwise. -/
theorem C10_author_path_skips_checks (s : Store) (actor : Int) (cid mid fid : JsNum)
    (c : Comment) (g : Message) (f : File) (fp : Project)
    (hc : s.commentByIdJ cid = some c) (hca : c.userId = actor)
    (hg : s.messageByIdJ mid = some g) (hga : g.userId = actor)
    (hf : s.fileByIdJ fid = some f) (_hfa : f.uploadedBy = actor)
    (hfp : s.projectById f.projectId = some fp)
    (hnm : (s.teamMembers fp.teamId).find? (fun m => m.userId == actor) = none) :
    (apiDeleteComment s actor cid).status = 200 ∧
    (apiDeleteMessage s actor mid).status = 200 ∧
    (apiDeleteFile s actor fid).status = 403 := by
  refine ⟨?_, ?_, ?_⟩
  · simp [apiDeleteComment, hc, hca]
  · simp [apiDeleteMessage, hg, hga]
  · simp [apiDeleteFile, hf, hfp, hnm]

/-- C10 witness: on `ghostStore` the comment's task is deleted and author 7
is a member of no team, yet the author deletes their comment and message
(200); the same non-member uploader gets 403 deleting their file. -/
theorem C10_author_path_skips_checks_witness :
    (apiDeleteComment ghostStore 7 (.int 1)).status = 200 ∧
    (apiDeleteMessage ghostStore 7 (.int 1)).status = 200 ∧
    (apiDeleteFile ghostStore 7 (.int 1)).status = 403 :=
  C10_author_path_skips_checks ghostStore 7 (.int 1) (.int 1) (.int 1)
    ⟨1, 5, 7, "x"⟩ ⟨1, 1, 7, "m"⟩ ⟨1, 1, 0, 7, "f"⟩ ⟨1, 1, "P"⟩
    (by decide) (by decide) (by decide) (by decide) (by decide) (by decide)
    (by decide) (by decide)

/-! ### C7 -/

theorem hasKey_obj (k : String) (fs : List (String × Json)) :
    hasKey k (.obj fs) = hasKeyFields k fs := rfl

theorem hasKey_arr (k : String) (xs : List Json) : hasKey k (.arr xs) = hasKeyList k xs := rfl

theorem hasKey_str (k s : String) : hasKey k (.str s) = false := rfl

theorem hasKey_num (k : String) (n : Int) : hasKey k (.num n) = false := rfl

theorem hasKey_null (k : String) : hasKey k .null = false := rfl

theorem hasKeyFields_nil (k : String) : hasKeyFields k [] = false := rfl

theorem hasKeyFields_cons (k k' : String) (v : Json) (rest : List (String × Json)) :
    hasKeyFields k ((k', v) :: rest) = (k' == k || hasKey k v || hasKeyFields k rest) := rfl

theorem hasKeyList_map_false {α : Type} (k : String) (f : α → Json) (l : List α)
    (hf : ∀ a, hasKey k (f a) = false) : hasKeyList k (l.map f) = false := by
  induction l with
  | nil => rfl
  | cons x xs ih => simp [hasKeyList, hf, ih]

theorem hasKeyList_append (k : String) (a b : List Json) :
    hasKeyList k (a ++ b) = (hasKeyList k a || hasKeyList k b) := by
  induction a with
  | nil => rfl
  | cons x xs ih => simp [hasKeyList, ih, Bool.or_assoc]

theorem hasKeyList_flatten_false (k : String) (ls : List (List Json))
    (h : ∀ l ∈ ls, hasKeyList k l = false) : hasKeyList k ls.flatten = false := by
  induction ls with
  | nil => rfl
  | cons x xs ih =>
    rw [List.flatten_cons, hasKeyList_append, h x (List.mem_cons_self x xs),
      ih (fun l hl => h l (List.mem_cons_of_mem _ hl))]
    rfl

theorem hasKey_password_msg (m : String) : hasKey "password" (msg m) = false := by
  simp +decide only [msg, hasKey_obj, hasKeyFields_cons, hasKeyFields_nil, hasKey_str]

theorem hasKey_password_userNoPass (u : User) :
    hasKey "password" (userNoPass u) = false := by
  simp +decide only [userNoPass, hasKey_obj, hasKeyFields_cons, hasKeyFields_nil,
    hasKey_str, hasKey_num]

theorem hasKey_password_sanitizedUser (u : User) :
    hasKey "password" (sanitizedUser u) = false := by
  simp +decide only [sanitizedUser, hasKey_obj, hasKeyFields_cons, hasKeyFields_nil,
    hasKey_str, hasKey_num]

theorem hasKey_password_teamJson (t : Team) :
    hasKey "password" (teamJson t) = false := by
  simp +decide only [teamJson, hasKey_obj, hasKeyFields_cons, hasKeyFields_nil,
    hasKey_str, hasKey_num]

theorem hasKey_password_teamMemberJson (m : TeamMember) :
    hasKey "password" (teamMemberJson m) = false := by
  simp +decide only [teamMemberJson, hasKey_obj, hasKeyFields_cons, hasKeyFields_nil,
    hasKey_str, hasKey_num]

theorem hasKey_password_projectJson (p : Project) :
    hasKey "password" (projectJson p) = false := by
  simp +decide only [projectJson, hasKey_obj, hasKeyFields_cons, hasKeyFields_nil,
    hasKey_str, hasKey_num]

theorem hasKey_password_taskJson (t : Task) :
    hasKey "password" (taskJson t) = false := by
  simp +decide only [taskJson, hasKey_obj, hasKeyFields_cons, hasKeyFields_nil,
    hasKey_str, hasKey_num]

theorem hasKey_password_commentJson (c : Comment) :
    hasKey "password" (commentJson c) = false := by
  simp +decide only [commentJson, hasKey_obj, hasKeyFields_cons, hasKeyFields_nil,
    hasKey_str, hasKey_num]

theorem hasKey_password_fileJson (f : File) :
    hasKey "password" (fileJson f) = false := by
  simp +decide only [fileJson, hasKey_obj, hasKeyFields_cons, hasKeyFields_nil,
    hasKey_str, hasKey_num]

theorem hasKey_password_commentWithUser (c : Comment) (u : User) :
    hasKey "password" (commentWithUser c u) = false := by
  simp +decide only [commentWithUser, hasKey_obj, hasKeyFields_cons, hasKeyFields_nil,
    hasKey_str, hasKey_num, hasKey_password_userNoPass]

theorem hasKey_password_messageWithUser (m : Message) (u : User) :
    hasKey "password" (messageWithUser m u) = false := by
  simp +decide only [messageWithUser, hasKey_obj, hasKeyFields_cons, hasKeyFields_nil,
    hasKey_str, hasKey_num, hasKey_password_userNoPass]

/-- C7: no response body of any endpoint, on any store and any input —
success or error, top-level user objects and users embedded in comments and
messages alike — contains a field named `password` at any nesting depth. -/
theorem C7_no_password_in_responses (s : Store) (actor : Int) (req : Request) :
    hasKey "password" (handle s actor req).body = false := by
  cases req <;>
    (simp only [handle, apiLogin, apiLogout, apiGetMe, apiGetUsers, apiPostUser, apiGetUser,
      apiPutUser, apiDeleteUser, apiGetTeams, apiPostTeam, apiGetTeam, apiPutTeam,
      apiDeleteTeam, apiGetTeamMembers, apiGetTeamMemberCurrent, apiPostTeamMember,
      apiDeleteTeamMember, apiGetProjects, apiPostProject, apiGetProject, apiPutProject,
      apiDeleteProject, apiGetTasks, apiPostTask, apiGetTask, apiPutTask, apiPutTaskStatus,
      apiDeleteTask, apiGetTaskComments, apiPostComment, apiDeleteComment, apiGetProjectFiles,
      apiGetTaskFiles, apiPostFile, apiDeleteFile, apiGetMessages, apiPostMessage,
      apiDeleteMessage];
     (repeat' split) <;>
     simp [hasKey_password_msg, hasKey_password_userNoPass, hasKey_password_sanitizedUser,
       hasKey_password_teamJson, hasKey_password_teamMemberJson, hasKey_password_projectJson,
       hasKey_password_taskJson, hasKey_password_commentJson, hasKey_password_fileJson,
       hasKey_password_commentWithUser, hasKey_password_messageWithUser,
       hasKey_arr, hasKey_null, hasKeyList_map_false, hasKeyList_flatten_false])

end ERP
